import Mathlib

/-!
# IA Cafe wallet server — shallow embedding and verification

This file embeds the balance-mutation core of `src/server.js` (an Express
server backed by a Firebase realtime database) into Lean and proves or
refutes the specified properties of its webhook-credit, withdrawal and
airtime flows.

Modelling conventions:
* JavaScript numbers are modelled as exact rationals (`ℚ`); amounts in the
  claims are decimal values, which `ℚ` represents exactly.  `NaN` (the
  result of `parseFloat`/`Number` on non-numeric input) is modelled as
  `none` in `Option ℚ`; every numeric comparison with `NaN` is `false`.
* `x.toFixed(2)` prefixed with `+` is modelled as rounding to the nearest
  multiple of `1/100` (`round2`).
* The Firebase node `vtu/users` is modelled as an association list from
  user id to record.  `ref.get` is key lookup, `ref.update`/`set` rewrites
  the record at a key, and `push` appends to a list-valued child.
* `crypto.createHmac("sha256", key).update(body).digest("hex")` is given a
  full executable HMAC-SHA256 implementation, validated below against the
  published test vectors.
* Each HTTP handler is a pure function from the database, the request and
  (for debit flows) the external provider's reply, to a response together
  with the new database; replies from the provider are parameters because
  the provider is an external collaborator.
-/

namespace IACafe

/-! ## JavaScript number and string helpers -/

/-- `+(q).toFixed(2)`: round to the nearest multiple of 1/100
(ties round up, matching `round` on `ℚ`). -/
def round2 (q : ℚ) : ℚ := (round (q * 100) : ℚ) / 100

/-- `q` is a two-decimal value (a whole number of hundredths). -/
def twoDec (q : ℚ) : Bool := (q * 100).den == 1

/-- JavaScript `<` on possibly-NaN numbers: any comparison with NaN is false. -/
def jsNumLt : Option ℚ → Option ℚ → Bool
  | some a, some b => a < b
  | _, _ => false

/-- JavaScript truthiness of a possibly-missing string: `undefined` and `""`
are falsy. -/
def jsStrTruthy : Option String → Bool
  | some s => !(s == "")
  | none => false

/-- JavaScript `a || b` on possibly-missing strings. -/
def jsOrStr (a b : Option String) : Option String :=
  if jsStrTruthy a then a else b

/-- JavaScript `a || d` where `d` is a string default. -/
def jsStrOrD (a : Option String) (d : String) : String :=
  if jsStrTruthy a then a.getD "" else d

/-! ## SHA-256 and HMAC-SHA256 (model of node's `crypto` module)

Words are `Nat`s kept below `2^32` by explicit reduction, messages are
lists of byte values. -/

/-- Truncate to 32 bits. -/
def m32 (n : Nat) : Nat := n % 4294967296

/-- Rotate a 32-bit word right by `s`. -/
def rotr32 (n : Nat) (s : Nat) : Nat :=
  m32 ((n >>> s) ||| (n <<< (32 - s)))

def shr32 (n : Nat) (s : Nat) : Nat := n >>> s

def ch (x y z : Nat) : Nat := (x &&& y) ^^^ ((4294967295 ^^^ x) &&& z)

def maj (x y z : Nat) : Nat := (x &&& y) ^^^ (x &&& z) ^^^ (y &&& z)

def bigSigma0 (x : Nat) : Nat := rotr32 x 2 ^^^ rotr32 x 13 ^^^ rotr32 x 22

def bigSigma1 (x : Nat) : Nat := rotr32 x 6 ^^^ rotr32 x 11 ^^^ rotr32 x 25

def smallSigma0 (x : Nat) : Nat := rotr32 x 7 ^^^ rotr32 x 18 ^^^ shr32 x 3

def smallSigma1 (x : Nat) : Nat := rotr32 x 17 ^^^ rotr32 x 19 ^^^ shr32 x 10

/-- The SHA-256 round constants. -/
def sha256K : List Nat :=
  [1116352408, 1899447441, 3049323471, 3921009573, 961987163, 1508970993,
   2453635748, 2870763221, 3624381080, 310598401, 607225278, 1426881987,
   1925078388, 2162078206, 2614888103, 3248222580, 3835390401, 4022224774,
   264347078, 604807628, 770255983, 1249150122, 1555081692, 1996064986,
   2554220882, 2821834349, 2952996808, 3210313671, 3336571891, 3584528711,
   113926993, 338241895, 666307205, 773529912, 1294757372, 1396182291,
   1695183700, 1986661051, 2177026350, 2456956037, 2730485921, 2820302411,
   3259730800, 3345764771, 3516065817, 3600352804, 4094571909, 275423344,
   430227734, 506948616, 659060556, 883997877, 958139571, 1322822218,
   1537002063, 1747873779, 1955562222, 2024104815, 2227730452, 2361852424,
   2428436474, 2756734187, 3204031479, 3329325298]

/-- The SHA-256 initial hash value. -/
def initH : List Nat :=
  [1779033703, 3144134277, 1013904242, 2773480762,
   1359893119, 2600822924, 528734635, 1541459225]

/-- Big-endian bytes of a 32-bit word. -/
def word2bytes (w : Nat) : List Nat :=
  [(w >>> 24) % 256, (w >>> 16) % 256, (w >>> 8) % 256, w % 256]

/-- A 32-bit word from four big-endian bytes. -/
def bytes2word (a b c d : Nat) : Nat := a <<< 24 ||| b <<< 16 ||| c <<< 8 ||| d

/-- SHA-256 padding: append `0x80`, zeros, and the 64-bit bit length. -/
def sha256pad (msg : List Nat) : List Nat :=
  let len := msg.length
  let bitLen := len * 8
  let padZeros := (55 - len % 64 + 64) % 64
  msg ++ [0x80] ++ List.replicate padZeros 0 ++
    [(bitLen >>> 56) % 256, (bitLen >>> 48) % 256, (bitLen >>> 40) % 256, (bitLen >>> 32) % 256,
     (bitLen >>> 24) % 256, (bitLen >>> 16) % 256, (bitLen >>> 8) % 256, bitLen % 256]

/-- Group bytes into big-endian 32-bit words. -/
def toWords : List Nat → List Nat
  | a :: b :: c :: d :: rest => bytes2word a b c d :: toWords rest
  | _ => []

/-- Split a word list into 16-word blocks. -/
def chunk16 : List Nat → List (List Nat)
  | w1 :: w2 :: w3 :: w4 :: w5 :: w6 :: w7 :: w8 ::
    w9 :: w10 :: w11 :: w12 :: w13 :: w14 :: w15 :: w16 :: rest =>
      [w1, w2, w3, w4, w5, w6, w7, w8, w9, w10, w11, w12, w13, w14, w15, w16] :: chunk16 rest
  | _ => []

/-- Extend a 16-word block by `i` further message-schedule words. -/
def extendSchedule (w : List Nat) : Nat → List Nat
  | 0 => w
  | n + 1 =>
    let w' := extendSchedule w n
    let t := 16 + n
    let v := m32 (smallSigma1 (w'.getD (t - 2) 0) + w'.getD (t - 7) 0 +
                  smallSigma0 (w'.getD (t - 15) 0) + w'.getD (t - 16) 0)
    w' ++ [v]

/-- The full 64-word message schedule of a block. -/
def schedule (block : List Nat) : List Nat := extendSchedule block 48

/-- The eight working variables of the compression function. -/
structure H8 where
  a : Nat
  b : Nat
  c : Nat
  d : Nat
  e : Nat
  f : Nat
  g : Nat
  h : Nat
deriving Repr, DecidableEq

/-- One round of the SHA-256 compression function. -/
def compressStep (st : H8) (kw : Nat × Nat) : H8 :=
  let t1 := m32 (st.h + bigSigma1 st.e + ch st.e st.f st.g + kw.1 + kw.2)
  let t2 := m32 (bigSigma0 st.a + maj st.a st.b st.c)
  ⟨m32 (t1 + t2), st.a, st.b, st.c, m32 (st.d + t1), st.e, st.f, st.g⟩

/-- Compress one 16-word block into the running hash value. -/
def compressBlock (h : List Nat) (block : List Nat) : List Nat :=
  let w := schedule block
  let st0 : H8 := ⟨h.getD 0 0, h.getD 1 0, h.getD 2 0, h.getD 3 0,
                   h.getD 4 0, h.getD 5 0, h.getD 6 0, h.getD 7 0⟩
  let st := (sha256K.zip w).foldl compressStep st0
  [m32 (h.getD 0 0 + st.a), m32 (h.getD 1 0 + st.b), m32 (h.getD 2 0 + st.c), m32 (h.getD 3 0 + st.d),
   m32 (h.getD 4 0 + st.e), m32 (h.getD 5 0 + st.f), m32 (h.getD 6 0 + st.g), m32 (h.getD 7 0 + st.h)]

/-- SHA-256 of a byte list, as a 32-entry byte list. -/
def sha256bytes (msg : List Nat) : List Nat :=
  let blocks := chunk16 (toWords (sha256pad msg))
  let hFinal := blocks.foldl compressBlock initH
  hFinal.flatMap word2bytes

/-- Lowercase hex digit. -/
def hexDigit (n : Nat) : Char :=
  if n < 10 then Char.ofNat (48 + n) else Char.ofNat (87 + n)

def byteToHex (b : Nat) : List Char := [hexDigit (b / 16), hexDigit (b % 16)]

/-- Lowercase hex rendering of a byte list. -/
def bytesToHex (bs : List Nat) : String := String.mk (bs.flatMap byteToHex)

/-- UTF-8 encoding of one character. -/
def charUtf8 (c : Char) : List Nat :=
  let n := c.toNat
  if n < 0x80 then [n]
  else if n < 0x800 then [0xC0 ||| (n >>> 6), 0x80 ||| (n &&& 0x3F)]
  else if n < 0x10000 then
    [0xE0 ||| (n >>> 12), 0x80 ||| ((n >>> 6) &&& 0x3F), 0x80 ||| (n &&& 0x3F)]
  else
    [0xF0 ||| (n >>> 18), 0x80 ||| ((n >>> 12) &&& 0x3F),
     0x80 ||| ((n >>> 6) &&& 0x3F), 0x80 ||| (n &&& 0x3F)]

/-- UTF-8 bytes of a string (`Buffer.from(s, "utf8")`). -/
def strBytes (s : String) : List Nat := s.data.flatMap charUtf8

/-- HMAC-SHA256 over byte lists. -/
def hmacSha256 (key msg : List Nat) : List Nat :=
  let k0 := if key.length > 64 then sha256bytes key else key
  let kpad := k0 ++ List.replicate (64 - k0.length) 0
  let ipad := kpad.map (fun b => b ^^^ 0x36)
  let opad := kpad.map (fun b => b ^^^ 0x5c)
  sha256bytes (opad ++ sha256bytes (ipad ++ msg))

/-- `crypto.createHmac("sha256", key).update(msg).digest("hex")`. -/
def hmacSha256Hex (key msg : String) : String :=
  bytesToHex (hmacSha256 (strBytes key) (strBytes msg))


/-! ## Data model (`vtu/users` in the Firebase realtime database) -/

/-- Virtual-account binding stored at `vtu/users/{uid}/accountDetails`
by the `/generate-account` route. -/
structure AccountDetails where
  bank : String
  accountNumber : String
  accountName : String
  accountReference : String
deriving Repr, DecidableEq

/-- A child of `vtu/users/{uid}/transactions`: the webhook handler pushes
deposit records, the airtime handler pushes airtime records. -/
inductive TxRecord
  | deposit (amount : ℚ) (transactionRef : String) (provider : String)
      (status : String) (date : String)
  | airtime (phone : String) (network : String) (amount : ℚ) (charged : ℚ)
      (reference : String) (status : String) (date : String)
deriving Repr, DecidableEq

/-- A child of `vtu/users/{uid}/withdrawals`, pushed by `/withdraw`. -/
structure WithdrawalRecord where
  amount : ℚ
  fee : ℚ
  net : ℚ
  accountNumber : String
  bankCode : String
  bankName : String
  accountName : String
  transactionId : String
  reference : String
  status : String
  date : String
deriving Repr, DecidableEq

/-- The record at `vtu/users/{uid}`.  `/register` sets the first five
fields; `accountDetails`, `transactions` and `withdrawals` are written by
the later flows. -/
structure UserRecord where
  fullName : String
  email : String
  phone : String
  balance : ℚ
  createdAt : String
  accountDetails : Option AccountDetails
  transactions : List TxRecord
  withdrawals : List WithdrawalRecord
deriving Repr, DecidableEq

/-- The `vtu/users` node: an association list from uid to record
(Firebase keys are unique; `forEach` visits entries in list order). -/
abbrev Db := List (String × UserRecord)

/-- `database.ref("vtu/users/" ++ uid).get()`. -/
def getUser : Db → String → Option UserRecord
  | [], _ => none
  | kv :: rest, uid => if kv.1 = uid then some kv.2 else getUser rest uid

/-- Overwrite the record at a key (used for `update` on a child of the
record as well as `push`, both modelled as whole-record rewrites). -/
def setUser : Db → String → UserRecord → Db
  | [], _, _ => []
  | kv :: rest, uid, u =>
      if kv.1 = uid then (kv.1, u) :: setUser rest uid u else kv :: setUser rest uid u

/-- The record `/register` writes: signup bonus balance 2.5, no account
details and empty histories. -/
def registerRecord (fullName email phone createdAt : String) : UserRecord :=
  ⟨fullName, email, phone, 2.5, createdAt, none, [], []⟩

/-- `/register`: create a fresh user under a new uid. -/
def registerUser (db : Db) (uid fullName email phone createdAt : String) : Db :=
  db ++ [(uid, registerRecord fullName email phone createdAt)]

/-! ## Signature verification (`verifyWebhook`, src/server.js lines 43–58) -/

/-- An inbound webhook request: the raw body kept by the JSON middleware,
the two possible signature headers, and the parsed body fields used by the
handler. -/
structure WebhookReq where
  rawBody : String
  verificationHeader : Option String
  signatureHeader : Option String
  event_type : String
  account_number : String
  amount_paid : ℚ
  transaction_reference : String
  timestamp : Int
deriving Repr, DecidableEq

/-- Node's `crypto.timingSafeEqual` on the UTF-8 buffers of two strings:
it throws (`Except.error`) when the buffers have different lengths and
otherwise compares contents.  Equal-length UTF-8 encodings are equal
exactly when the strings are, so the content comparison is string
equality. -/
def timingSafeEqual (a b : String) : Except Unit Bool :=
  if (strBytes a).length = (strBytes b).length then Except.ok (a == b)
  else Except.error ()

/-- `verifyWebhook(req, apiKey)`: read the signature header (either name,
JavaScript `||`), fail on a falsy header, recompute the hex HMAC-SHA256 of
the raw body under the key and compare with `timingSafeEqual`; the
surrounding `try/catch` turns any thrown error into `false`. -/
def verifyWebhook (req : WebhookReq) (apiKey : String) : Bool :=
  let signature := jsOrStr req.verificationHeader req.signatureHeader
  if jsStrTruthy signature then
    let computedSignature := hmacSha256Hex apiKey req.rawBody
    match timingSafeEqual (signature.getD "") computedSignature with
    | Except.ok b => b
    | Except.error _ => false
  else false

/-! ## Deposit webhook handler (`POST /pluzzpay/webhook`, lines 160–215) -/

/-- The recognized deposit event types. -/
def recognizedEvents : List String :=
  ["paga.payment.received", "nomba.payment.received", "bell_mfb.payment.received"]

/-- One step of the `snapshot.forEach` account scan: remember this user's
key when its `accountDetails.accountNumber` matches, otherwise keep the
previous candidate (users without a binding are skipped). -/
def scanStep (account_number : String) (acc : Option String)
    (kv : String × UserRecord) : Option String :=
  match kv.2.accountDetails with
  | some ad => if ad.accountNumber = account_number then some kv.1 else acc
  | none => acc

/-- The `snapshot.forEach` scan: the last user whose
`accountDetails.accountNumber` equals the payload's account number. -/
def findTargetUser (db : Db) (account_number : String) : Option String :=
  db.foldl (scanStep account_number) none

/-- `new Date(timestamp * 1000).toISOString()`, modelled as an injective
rendering of the epoch timestamp (the date library is an external
collaborator). -/
def isoDate (t : Int) : String := toString t

/-- The webhook handler: returns the HTTP status sent with `sendStatus`
together with the updated database.  On a verified, recognized and
resolved deposit it credits the gross amount (`newBalance =
currentBalance + grossAmount`) and then pushes one deposit record. -/
def webhookHandler (db : Db) (req : WebhookReq) (apiKey : String) : Nat × Db :=
  if verifyWebhook req apiKey then
    if recognizedEvents.contains req.event_type then
      match findTargetUser db req.account_number with
      | none => (404, db)
      | some targetUserId =>
        -- `userSnap.exists() ? userSnap.val().balance || 0 : 0`; on a
        -- present record `balance || 0` is the identity.
        let currentBalance : ℚ :=
          match getUser db targetUserId with
          | some u => u.balance
          | none => 0
        let grossAmount := req.amount_paid
        let newBalance := currentBalance + grossAmount
        let dbAfterBalance :=
          match getUser db targetUserId with
          | some u => setUser db targetUserId { u with balance := newBalance }
          | none => db  -- unreachable: the scan found this key
        let txn := TxRecord.deposit grossAmount req.transaction_reference
          req.event_type "SUCCESS" (isoDate req.timestamp)
        let dbAfterPush :=
          match getUser dbAfterBalance targetUserId with
          | some u =>
              setUser dbAfterBalance targetUserId
                { u with transactions := u.transactions ++ [txn] }
          | none => dbAfterBalance
        (200, dbAfterPush)
    else (200, db)  -- unexpected event_type: log and acknowledge
  else (401, db)

/-! ## Withdrawal handler (`POST /withdraw`, lines 273–339) -/

/-- The parsed `/withdraw` request body; `amount` is
`parseFloat(req.body.amount)` with `none` modelling `NaN`. -/
structure WithdrawReq where
  accountNumber : String
  bankCode : String
  amount : Option ℚ
deriving Repr, DecidableEq

/-- The `data` payload of a successful PluzzPay transfer reply. -/
structure TransferData where
  bankName : String
  accountName : String
  transactionId : String
  reference : String
  status : Option String
deriving Repr, DecidableEq

/-- A parsed PluzzPay transfer reply; `status` is the truthiness of
`result.status`. -/
structure TransferResult where
  status : Bool
  message : String
  data : TransferData
deriving Repr, DecidableEq

/-- The JSON body every banking route answers with. -/
structure ApiResponse where
  success : Bool
  message : String
deriving Repr, DecidableEq

/-- Result of running a debit handler: the response, the database after
the request, whether the external provider was called, and the amount
sent to the provider if so (`none` also models a `NaN` amount). -/
structure DebitOutcome where
  resp : ApiResponse
  db : Db
  providerCalled : Bool
  sentAmount : Option ℚ
deriving Repr, DecidableEq

/-- The withdrawal handler.  `sessionUser` is `req.session.user?.uid`;
`providerReply` is the parsed reply of the bank-transfer call if the
handler makes it (`none` models an unparseable reply, whose `json()`
failure is caught by the route's `try/catch`). -/
def withdrawHandler (db : Db) (sessionUser : Option String) (req : WithdrawReq)
    (providerReply : Option TransferResult) (now : String) : DebitOutcome :=
  match sessionUser with
  | none => ⟨⟨false, "Not logged in"⟩, db, false, none⟩
  | some uid =>
    if req.accountNumber = "" ∨ req.bankCode = "" ∨ req.amount = none ∨
        jsNumLt req.amount (some 500) then
      ⟨⟨false, "Invalid withdrawal details"⟩, db, false, none⟩
    else
      match getUser db uid with
      | none => ⟨⟨false, "User not found"⟩, db, false, none⟩
      | some userData =>
        -- `userData.balance || 0` is the identity on a present balance.
        let currentBalance := userData.balance
        -- the validation above rules out `NaN`, so `amount = some wa`
        let wa := req.amount.getD 0
        if currentBalance < wa then
          ⟨⟨false, "Insufficient balance"⟩, db, false, none⟩
        else
          let fee := round2 (wa * 0.045)
          let net := round2 (wa - fee)
          -- external call: transfer of `net` to the destination account
          match providerReply with
          | none => ⟨⟨false, "Internal Server Error"⟩, db, true, some net⟩
          | some result =>
            if result.status then
              let newBalance := round2 (currentBalance - wa)
              let dbAfterBalance :=
                match getUser db uid with
                | some u => setUser db uid { u with balance := newBalance }
                | none => db
              let wrec : WithdrawalRecord :=
                ⟨wa, fee, net, req.accountNumber, req.bankCode,
                 result.data.bankName, result.data.accountName,
                 result.data.transactionId, result.data.reference,
                 jsStrOrD result.data.status "PENDING", now⟩
              let dbAfterPush :=
                match getUser dbAfterBalance uid with
                | some u =>
                    setUser dbAfterBalance uid
                      { u with withdrawals := u.withdrawals ++ [wrec] }
                | none => dbAfterBalance
              ⟨⟨true, "Withdrawal initiated successfully!"⟩, dbAfterPush, true, some net⟩
            else ⟨⟨false, result.message⟩, db, true, some net⟩

/-! ## Airtime handler (`POST /airtime`, lines 367–424) -/

/-- The parsed `/airtime` request body; `amount` is `Number(amount)` with
`none` modelling `NaN`. -/
structure AirtimeReq where
  serviceID : String
  amount : Option ℚ
  mobileNumber : String
deriving Repr, DecidableEq

/-- The `data` payload of a Jossyfey airtime reply. -/
structure AirtimeData where
  network : String
  amount : ℚ
  reference : String
  status : String
deriving Repr, DecidableEq

/-- A parsed Jossyfey airtime reply; success is `status === "success"`. -/
structure AirtimeResult where
  status : String
  message : String
  data : AirtimeData
deriving Repr, DecidableEq

/-- The airtime handler.  When `sessionUser` is `none` the expression
`req.session.user.uid` throws, and the route's `try/catch` answers
"Internal Server Error" — there is no explicit login check on this route.
The only local guard before the provider call is the balance comparison
`currentBalance < discountedAmount`, which is `false` whenever the amount
is `NaN`. -/
def airtimeHandler (db : Db) (sessionUser : Option String) (req : AirtimeReq)
    (providerReply : Option AirtimeResult) (now : String) : DebitOutcome :=
  match sessionUser with
  | none => ⟨⟨false, "Internal Server Error"⟩, db, false, none⟩
  | some userId =>
    match getUser db userId with
    | none => ⟨⟨false, "User not found"⟩, db, false, none⟩
    | some userData =>
      let currentBalance := userData.balance
      let discountedAmount := req.amount.map (fun a => round2 (a * 0.995))
      if jsNumLt (some currentBalance) discountedAmount then
        ⟨⟨false, "Insufficient balance"⟩, db, false, none⟩
      else
        -- external call: airtime purchase of `discountedAmount`
        match providerReply with
        | none => ⟨⟨false, "Internal Server Error"⟩, db, true, discountedAmount⟩
        | some result =>
          if result.status = "success" then
            match discountedAmount with
            | none =>
                -- `newBalance` would be `NaN`; the Firebase client rejects
                -- `NaN` values, the `try/catch` answers an error, nothing
                -- is written.
                ⟨⟨false, "Internal Server Error"⟩, db, true, none⟩
            | some da =>
              let newBalance := currentBalance - da
              let dbAfterBalance :=
                match getUser db userId with
                | some u => setUser db userId { u with balance := newBalance }
                | none => db
              let txn := TxRecord.airtime req.mobileNumber result.data.network
                result.data.amount da result.data.reference result.data.status now
              let dbAfterPush :=
                match getUser dbAfterBalance userId with
                | some u =>
                    setUser dbAfterBalance userId
                      { u with transactions := u.transactions ++ [txn] }
                | none => dbAfterBalance
              ⟨⟨true, result.message⟩, dbAfterPush, true, some da⟩
          else ⟨⟨false, result.message⟩, db, true, discountedAmount⟩

/-! ## Operation sequences and the ledger invariant -/

/-- One accepted-or-rejected request against the store: a deposit webhook
delivery, a withdrawal attempt (by the authenticated user `uid`) or an
airtime attempt. -/
inductive Op
  | deposit (req : WebhookReq)
  | withdraw (uid : String) (req : WithdrawReq) (reply : Option TransferResult)
  | airtime (uid : String) (req : AirtimeReq) (reply : Option AirtimeResult)

/-- Apply one request to the database (responses discarded). -/
def applyOp (apiKey now : String) (db : Db) : Op → Db
  | Op.deposit req => (webhookHandler db req apiKey).2
  | Op.withdraw uid req reply => (withdrawHandler db (some uid) req reply now).db
  | Op.airtime uid req reply => (airtimeHandler db (some uid) req reply now).db

/-- Apply a sequence of requests left to right. -/
def runOps (apiKey now : String) (db : Db) (ops : List Op) : Db :=
  ops.foldl (applyOp apiKey now) db

/-- Signed balance effect a transaction record claims: deposits credit
their amount, airtime purchases debit their charged amount. -/
def txDelta : TxRecord → ℚ
  | TxRecord.deposit amount _ _ _ _ => amount
  | TxRecord.airtime _ _ _ charged _ _ _ => -charged

/-- Signup bonus plus the sum of recorded credit/debit effects. -/
def ledgerSum (u : UserRecord) : ℚ :=
  2.5 + (u.transactions.map txDelta).sum - (u.withdrawals.map WithdrawalRecord.amount).sum

/-- The ledger invariant for one user: the stored balance equals the
signup bonus plus recorded net credits minus recorded gross debits, and
is a two-decimal value. -/
def BalancedUser (u : UserRecord) : Prop :=
  u.balance = ledgerSum u ∧ twoDec u.balance = true

/-- The ledger invariant for the whole store. -/
def BalancedDb (db : Db) : Prop := ∀ kv ∈ db, BalancedUser kv.2

/-- The incoming amount of a request is a two-decimal value (trivial for
airtime, whose debit is rounded to two decimals by the handler itself). -/
def opTwoDec : Op → Bool
  | Op.deposit req => twoDec req.amount_paid
  | Op.withdraw _ req _ =>
      match req.amount with
      | some a => twoDec a
      | none => true
  | Op.airtime _ _ _ => true

/-! ## Interleaving model of concurrent webhook credits

Lines 188–194 of the webhook handler perform `userRef.get()` and then
`userRef.update({ balance: newBalance })` as two separate awaited
operations with no transaction or lock; a concurrent delivery for the
same account can run between them.  A credit task is therefore two
atomic steps against the shared store: read the balance, then write
`currentBalance + grossAmount`. -/

/-- Program counter of one in-flight credit: before the read, between
read and write (holding the balance it read), or finished. -/
inductive CreditPC
  | toRead
  | toWrite (currentBalance : ℚ)
  | finished
deriving Repr, DecidableEq

/-- One step of a credit task for `uid` crediting `gross`. -/
def creditStep (uid : String) (gross : ℚ) : CreditPC → Db → CreditPC × Db
  | CreditPC.toRead, db =>
      (CreditPC.toWrite (match getUser db uid with | some u => u.balance | none => 0), db)
  | CreditPC.toWrite currentBalance, db =>
      (CreditPC.finished,
        match getUser db uid with
        | some u => setUser db uid { u with balance := currentBalance + gross }
        | none => db)
  | CreditPC.finished, db => (CreditPC.finished, db)

/-- Two concurrent credit tasks and the shared store. -/
structure RaceState where
  pc1 : CreditPC
  pc2 : CreditPC
  db : Db

/-- Run the two tasks under a schedule; `true` steps the first task. -/
def runRace (uid : String) (g1 g2 : ℚ) : List Bool → RaceState → RaceState
  | [], st => st
  | true :: rest, st =>
      let s := creditStep uid g1 st.pc1 st.db
      runRace uid g1 g2 rest ⟨s.1, st.pc2, s.2⟩
  | false :: rest, st =>
      let s := creditStep uid g2 st.pc2 st.db
      runRace uid g1 g2 rest ⟨st.pc1, s.1, s.2⟩

/-! ## Derived record constructors -/

/-- The deposit record the webhook handler pushes for a payload. -/
def depositRecord (req : WebhookReq) : TxRecord :=
  TxRecord.deposit req.amount_paid req.transaction_reference req.event_type
    "SUCCESS" (isoDate req.timestamp)

/-- The user record after a successful credit of `req` on `u`: balance
increased by the gross amount and exactly one deposit record appended;
every other field untouched. -/
def creditedUser (u : UserRecord) (req : WebhookReq) : UserRecord :=
  { u with
    balance := u.balance + req.amount_paid,
    transactions := u.transactions ++ [depositRecord req] }

/-- The withdrawal record pushed on a successful transfer of `wa`. -/
def withdrawRecordOf (req : WithdrawReq) (wa : ℚ) (r : TransferResult)
    (now : String) : WithdrawalRecord :=
  ⟨wa, round2 (wa * 0.045), round2 (wa - round2 (wa * 0.045)),
   req.accountNumber, req.bankCode, r.data.bankName, r.data.accountName,
   r.data.transactionId, r.data.reference, jsStrOrD r.data.status "PENDING", now⟩

/-- The user record after a successful withdrawal of `wa`: the full
requested amount debited (rounded to two decimals) and one withdrawal
record appended. -/
def withdrawnUser (u : UserRecord) (wa : ℚ) (w : WithdrawalRecord) : UserRecord :=
  { u with
    balance := round2 (u.balance - wa),
    withdrawals := u.withdrawals ++ [w] }

/-- The transaction record pushed on a successful airtime purchase
charged `da`. -/
def airtimeRecordOf (req : AirtimeReq) (da : ℚ) (r : AirtimeResult)
    (now : String) : TxRecord :=
  TxRecord.airtime req.mobileNumber r.data.network r.data.amount da
    r.data.reference r.data.status now

/-- The user record after a successful airtime purchase charged `da`. -/
def airtimeUser (u : UserRecord) (da : ℚ) (t : TxRecord) : UserRecord :=
  { u with
    balance := u.balance - da,
    transactions := u.transactions ++ [t] }

/-! ## Concrete test fixtures -/

def testKey : String := "PLUZZPAY_TEST_KEY"

def testAccount : AccountDetails :=
  ⟨"Paga", "0012345678", "IA CAFE USER", "ACCREF1"⟩

def testUser : UserRecord :=
  ⟨"Ada Ng", "ada@example.com", "08012345678", 2.5, "2024-01-01T00:00:00Z",
   some testAccount, [], []⟩

def testDb : Db := [("u1", testUser)]

/-- A user with enough balance for debit scenarios. -/
def richUser : UserRecord :=
  ⟨"Ada Ng", "ada@example.com", "08012345678", 10000, "2024-01-01T00:00:00Z",
   some testAccount, [], []⟩

def richDb : Db := [("u1", richUser)]

def depositBody : String :=
  "event_type=paga.payment.received&account_number=0012345678&amount_paid=100&transaction_reference=TX100"

def depositReq : WebhookReq :=
  ⟨depositBody, some (hmacSha256Hex testKey depositBody), none,
   "paga.payment.received", "0012345678", 100, "TX100", 1700000000⟩

/-- `depositBody` with a single byte changed (amount 100 → 900). -/
def tamperedBody : String :=
  "event_type=paga.payment.received&account_number=0012345678&amount_paid=900&transaction_reference=TX100"

/-- The tampered body paired with the signature of the original body. -/
def tamperedReq : WebhookReq :=
  ⟨tamperedBody, some (hmacSha256Hex testKey depositBody), none,
   "paga.payment.received", "0012345678", 900, "TX100", 1700000000⟩

/-- The tampered body paired with a signature freshly computed over it. -/
def freshReq : WebhookReq :=
  ⟨tamperedBody, some (hmacSha256Hex testKey tamperedBody), none,
   "paga.payment.received", "0012345678", 900, "TX100", 1700000000⟩

def oddBody : String :=
  "event_type=paga.payment.received&account_number=0012345678&amount_paid=1000.005&transaction_reference=TX200"

/-- A verified deposit whose gross amount is not a whole number of cents. -/
def oddDepositReq : WebhookReq :=
  ⟨oddBody, some (hmacSha256Hex testKey oddBody), none,
   "paga.payment.received", "0012345678", 1000.005, "TX200", 1700000100⟩

def wreq500 : WithdrawReq := ⟨"0123456789", "058", some 500⟩

def wreq600 : WithdrawReq := ⟨"0123456789", "058", some 600⟩

def okTransfer : TransferResult :=
  ⟨true, "Transfer queued", ⟨"GTBank", "JOHN DOE", "TID1", "RF1", some "SUCCESS"⟩⟩

def failTransfer : TransferResult :=
  ⟨false, "Insufficient float", ⟨"", "", "", "", none⟩⟩

def areqOk : AirtimeReq := ⟨"mtn", some 200, "08030000000"⟩

/-- An airtime request whose amount parsed to `NaN`. -/
def areqNaN : AirtimeReq := ⟨"mtn", none, "08030000000"⟩

def okAirtime : AirtimeResult :=
  ⟨"success", "Airtime delivered", ⟨"MTN", 199, "AIR1", "delivered"⟩⟩

def failAirtime : AirtimeResult :=
  ⟨"error", "Provider rejected", ⟨"", 0, "", ""⟩⟩


/-- A second registered user with no virtual account binding, used to
observe the frame property. -/
def otherUser : UserRecord :=
  ⟨"Bisi Ade", "bisi@example.com", "08090000000", 7.5, "2024-01-02T00:00:00Z",
   none, [], []⟩

def twoUserDb : Db := [("u1", testUser), ("u2", otherUser)]

/-- A user with balance 0, for the concurrency scenario of the spec. -/
def zeroUser : UserRecord :=
  ⟨"Ada Ng", "ada@example.com", "08012345678", 0, "2024-01-01T00:00:00Z",
   some testAccount, [], []⟩


/-! ## SHA-256 test vectors -/

set_option maxRecDepth 10000 in
/-- FIPS 180-4 test vector for the SHA-256 embedding. -/
theorem sha256hex_abc_vector :
    bytesToHex (sha256bytes (strBytes "abc")) =
      "ba7816bf8f01cfea414140de5dae2223b00361a396177a9cb410ff61f20015ad" := by
  decide

set_option maxRecDepth 10000 in
/-- RFC 4231-style test vector for the HMAC-SHA256 embedding. -/
theorem hmacSha256Hex_vector :
    hmacSha256Hex "key" "The quick brown fox jumps over the lazy dog" =
      "f7bc83f430538424b13298e6aa6fb143ef4d59a14946175997479dbc2d1a3cd8" := by
  decide


/-! ## Store lemmas -/

theorem getUser_setUser (db : Db) (uid : String) (u' : UserRecord) :
    getUser (setUser db uid u') uid = (getUser db uid).map (fun _ => u') := by
  induction db with
  | nil => rfl
  | cons kv rest ih =>
    obtain ⟨k, v⟩ := kv
    by_cases h : k = uid
    · simp only [setUser, if_pos h, getUser, Option.map_some']
    · simp only [setUser, if_neg h, getUser, if_neg h]
      exact ih

theorem getUser_setUser_ne (db : Db) (uid uid' : String) (u : UserRecord)
    (h : uid' ≠ uid) : getUser (setUser db uid u) uid' = getUser db uid' := by
  induction db with
  | nil => rfl
  | cons kv rest ih =>
    obtain ⟨k, v⟩ := kv
    by_cases hk : k = uid
    · have hne : k ≠ uid' := by
        intro hc
        rw [hc] at hk
        exact h hk
      simp only [setUser, if_pos hk, getUser, if_neg hne]
      exact ih
    · by_cases hk' : k = uid'
      · simp only [setUser, if_neg hk, getUser, if_pos hk']
      · simp only [setUser, if_neg hk, getUser, if_neg hk']
        exact ih

theorem setUser_setUser (db : Db) (uid : String) (u1 u2 : UserRecord) :
    setUser (setUser db uid u1) uid u2 = setUser db uid u2 := by
  induction db with
  | nil => rfl
  | cons kv rest ih =>
    by_cases h : kv.1 = uid
    · simp [setUser, h, ih]
    · simp [setUser, h, ih]

theorem mem_setUser {kv' : String × UserRecord} {db : Db} {uid : String}
    {u : UserRecord} (h : kv' ∈ setUser db uid u) : kv'.2 = u ∨ kv' ∈ db := by
  induction db with
  | nil => simp [setUser] at h
  | cons kv rest ih =>
    by_cases hk : kv.1 = uid
    · simp only [setUser, if_pos hk, List.mem_cons] at h
      rcases h with h | h
      · left
        rw [h]
      · rcases ih h with h' | h'
        · exact Or.inl h'
        · exact Or.inr (List.mem_cons_of_mem _ h')
    · simp only [setUser, if_neg hk, List.mem_cons] at h
      rcases h with h | h
      · exact Or.inr (h ▸ List.mem_cons_self _ _)
      · rcases ih h with h' | h'
        · exact Or.inl h'
        · exact Or.inr (List.mem_cons_of_mem _ h')

theorem getUser_mem {db : Db} {uid : String} {u : UserRecord}
    (h : getUser db uid = some u) : (uid, u) ∈ db := by
  induction db with
  | nil => simp [getUser] at h
  | cons kv rest ih =>
    obtain ⟨k, v⟩ := kv
    by_cases hk : k = uid
    · simp only [getUser, if_pos hk, Option.some.injEq] at h
      subst hk
      subst h
      exact List.mem_cons_self _ _
    · simp only [getUser, if_neg hk] at h
      exact List.mem_cons_of_mem _ (ih h)

theorem keys_setUser (db : Db) (uid : String) (u : UserRecord) :
    (setUser db uid u).map Prod.fst = db.map Prod.fst := by
  induction db with
  | nil => rfl
  | cons kv rest ih =>
    by_cases h : kv.1 = uid
    · simp [setUser, h, ih]
    · simp [setUser, h, ih]

theorem getUser_of_mem_nodup {db : Db} {kv : String × UserRecord}
    (hnd : (db.map Prod.fst).Nodup) (h : kv ∈ db) :
    getUser db kv.1 = some kv.2 := by
  induction db with
  | nil => simp at h
  | cons kv0 rest ih =>
    simp only [List.map_cons, List.nodup_cons] at hnd
    rcases List.mem_cons.mp h with h | h
    · rw [h]
      simp [getUser]
    · have hne : kv0.1 ≠ kv.1 := by
        intro hc
        exact hnd.1 (hc ▸ List.mem_map_of_mem Prod.fst h)
      simp only [getUser, if_neg hne]
      exact ih hnd.2 h

theorem foldl_scanStep_setUser (uid acct : String) (u' : UserRecord) :
    ∀ (l : Db) (acc : Option String),
      (∀ kv ∈ l, kv.1 = uid → kv.2.accountDetails = u'.accountDetails) →
      (setUser l uid u').foldl (scanStep acct) acc = l.foldl (scanStep acct) acc := by
  intro l
  induction l with
  | nil =>
    intro acc h
    rfl
  | cons kv rest ih =>
    intro acc h
    obtain ⟨k, v⟩ := kv
    by_cases hk : k = uid
    · have hacc : v.accountDetails = u'.accountDetails :=
        h (k, v) (List.mem_cons_self _ _) hk
      have hstep : scanStep acct acc (k, u') = scanStep acct acc (k, v) := by
        simp only [scanStep, hacc]
      simp only [setUser, if_pos hk, List.foldl_cons]
      rw [hstep]
      exact ih _ (fun kv' hm hk' => h kv' (List.mem_cons_of_mem _ hm) hk')
    · simp only [setUser, if_neg hk, List.foldl_cons]
      exact ih _ (fun kv' hm hk' => h kv' (List.mem_cons_of_mem _ hm) hk')

theorem findTargetUser_setUser (db : Db) (uid acct : String) (u' : UserRecord)
    (h : ∀ kv ∈ db, kv.1 = uid → kv.2.accountDetails = u'.accountDetails) :
    findTargetUser (setUser db uid u') acct = findTargetUser db acct :=
  foldl_scanStep_setUser uid acct u' db none h

/-! ## Two-decimal arithmetic lemmas -/

theorem twoDec_iff (q : ℚ) : twoDec q = true ↔ ∃ n : ℤ, (n : ℚ) / 100 = q := by
  unfold twoDec
  rw [beq_iff_eq]
  constructor
  · intro h
    refine ⟨(q * 100).num, ?_⟩
    have := Rat.den_eq_one_iff (q * 100) |>.mp h
    rw [this]
    field_simp
  · rintro ⟨n, rfl⟩
    have h100 : ((100 : ℚ)) ≠ 0 := by norm_num
    rw [div_mul_cancel₀ _ h100]
    exact Rat.den_intCast n

theorem twoDec_add {a b : ℚ} (ha : twoDec a = true) (hb : twoDec b = true) :
    twoDec (a + b) = true := by
  rcases (twoDec_iff a).mp ha with ⟨n, rfl⟩
  rcases (twoDec_iff b).mp hb with ⟨m, rfl⟩
  refine (twoDec_iff _).mpr ⟨n + m, ?_⟩
  push_cast
  ring

theorem twoDec_sub {a b : ℚ} (ha : twoDec a = true) (hb : twoDec b = true) :
    twoDec (a - b) = true := by
  rcases (twoDec_iff a).mp ha with ⟨n, rfl⟩
  rcases (twoDec_iff b).mp hb with ⟨m, rfl⟩
  refine (twoDec_iff _).mpr ⟨n - m, ?_⟩
  push_cast
  ring

theorem twoDec_round2 (q : ℚ) : twoDec (round2 q) = true :=
  (twoDec_iff _).mpr ⟨round (q * 100), rfl⟩

theorem round2_eq_self {q : ℚ} (h : twoDec q = true) : round2 q = q := by
  rcases (twoDec_iff q).mp h with ⟨n, rfl⟩
  unfold round2
  have h100 : ((100 : ℚ)) ≠ 0 := by norm_num
  rw [div_mul_cancel₀ _ h100, round_intCast]

theorem twoDec_signup : twoDec (2.5 : ℚ) = true := by
  refine (twoDec_iff _).mpr ⟨250, ?_⟩
  norm_num

/-! ## Path equations for the webhook handler -/


theorem webhookHandler_unverified {req : WebhookReq} {apiKey : String} (db : Db)
    (hv : verifyWebhook req apiKey = false) :
    webhookHandler db req apiKey = (401, db) := by
  unfold webhookHandler
  rw [hv]
  simp

theorem webhookHandler_unrecognized {req : WebhookReq} {apiKey : String} (db : Db)
    (hv : verifyWebhook req apiKey = true)
    (he : recognizedEvents.contains req.event_type = false) :
    webhookHandler db req apiKey = (200, db) := by
  unfold webhookHandler
  rw [hv, he]
  simp

theorem webhookHandler_unresolved {req : WebhookReq} {apiKey : String} {db : Db}
    (hv : verifyWebhook req apiKey = true)
    (he : recognizedEvents.contains req.event_type = true)
    (hf : findTargetUser db req.account_number = none) :
    webhookHandler db req apiKey = (404, db) := by
  unfold webhookHandler
  rw [hv, he, hf]
  simp

theorem webhookHandler_target_missing {req : WebhookReq} {apiKey uid : String}
    {db : Db}
    (hv : verifyWebhook req apiKey = true)
    (he : recognizedEvents.contains req.event_type = true)
    (hf : findTargetUser db req.account_number = some uid)
    (hu : getUser db uid = none) :
    webhookHandler db req apiKey = (200, db) := by
  unfold webhookHandler
  rw [hv, he, hf]
  simp only [hu, if_true]

theorem webhookHandler_success {req : WebhookReq} {apiKey uid : String} {db : Db}
    {u : UserRecord}
    (hv : verifyWebhook req apiKey = true)
    (he : recognizedEvents.contains req.event_type = true)
    (hf : findTargetUser db req.account_number = some uid)
    (hu : getUser db uid = some u) :
    webhookHandler db req apiKey = (200, setUser db uid (creditedUser u req)) := by
  unfold webhookHandler
  rw [hv, he, hf]
  simp only [hu, if_true, getUser_setUser, Option.map_some', setUser_setUser]
  rfl

/-! ## Path equations for the withdrawal handler -/


theorem withdrawHandler_noLogin (db : Db) (req : WithdrawReq)
    (reply : Option TransferResult) (now : String) :
    withdrawHandler db none req reply now =
      ⟨⟨false, "Not logged in"⟩, db, false, none⟩ := rfl

theorem withdrawHandler_invalid {req : WithdrawReq} (db : Db) (uid : String)
    (reply : Option TransferResult) (now : String)
    (hbad : req.accountNumber = "" ∨ req.bankCode = "" ∨ req.amount = none ∨
      jsNumLt req.amount (some 500) = true) :
    withdrawHandler db (some uid) req reply now =
      ⟨⟨false, "Invalid withdrawal details"⟩, db, false, none⟩ := by
  simp only [withdrawHandler]
  rw [if_pos hbad]

theorem withdrawHandler_noUser {req : WithdrawReq} {db : Db} {uid : String}
    (reply : Option TransferResult) (now : String)
    (hbad : ¬(req.accountNumber = "" ∨ req.bankCode = "" ∨ req.amount = none ∨
      jsNumLt req.amount (some 500) = true))
    (hu : getUser db uid = none) :
    withdrawHandler db (some uid) req reply now =
      ⟨⟨false, "User not found"⟩, db, false, none⟩ := by
  simp only [withdrawHandler]
  rw [if_neg hbad, hu]

theorem withdrawHandler_insufficient {req : WithdrawReq} {db : Db}
    {uid : String} {u : UserRecord} {wa : ℚ}
    (reply : Option TransferResult) (now : String)
    (hbad : ¬(req.accountNumber = "" ∨ req.bankCode = "" ∨ req.amount = none ∨
      jsNumLt req.amount (some 500) = true))
    (hu : getUser db uid = some u)
    (ha : req.amount = some wa)
    (hlt : u.balance < wa) :
    withdrawHandler db (some uid) req reply now =
      ⟨⟨false, "Insufficient balance"⟩, db, false, none⟩ := by
  simp only [withdrawHandler]
  rw [if_neg hbad, hu, ha]
  simp only [Option.getD_some]
  rw [if_pos hlt]

theorem withdrawHandler_noReply {req : WithdrawReq} {db : Db}
    {uid : String} {u : UserRecord} {wa : ℚ} (now : String)
    (hbad : ¬(req.accountNumber = "" ∨ req.bankCode = "" ∨ req.amount = none ∨
      jsNumLt req.amount (some 500) = true))
    (hu : getUser db uid = some u)
    (ha : req.amount = some wa)
    (hge : ¬ u.balance < wa) :
    withdrawHandler db (some uid) req none now =
      ⟨⟨false, "Internal Server Error"⟩, db, true,
        some (round2 (wa - round2 (wa * 0.045)))⟩ := by
  simp only [withdrawHandler]
  rw [if_neg hbad, hu, ha]
  simp only [Option.getD_some]
  rw [if_neg hge]

theorem withdrawHandler_providerFail {req : WithdrawReq} {db : Db}
    {uid : String} {u : UserRecord} {wa : ℚ} {r : TransferResult} (now : String)
    (hbad : ¬(req.accountNumber = "" ∨ req.bankCode = "" ∨ req.amount = none ∨
      jsNumLt req.amount (some 500) = true))
    (hu : getUser db uid = some u)
    (ha : req.amount = some wa)
    (hge : ¬ u.balance < wa)
    (hr : r.status = false) :
    withdrawHandler db (some uid) req (some r) now =
      ⟨⟨false, r.message⟩, db, true,
        some (round2 (wa - round2 (wa * 0.045)))⟩ := by
  simp only [withdrawHandler]
  rw [if_neg hbad, hu, ha]
  simp only [Option.getD_some]
  rw [if_neg hge, hr]
  simp

theorem withdrawHandler_success {req : WithdrawReq} {db : Db}
    {uid : String} {u : UserRecord} {wa : ℚ} {r : TransferResult} (now : String)
    (hbad : ¬(req.accountNumber = "" ∨ req.bankCode = "" ∨ req.amount = none ∨
      jsNumLt req.amount (some 500) = true))
    (hu : getUser db uid = some u)
    (ha : req.amount = some wa)
    (hge : ¬ u.balance < wa)
    (hr : r.status = true) :
    withdrawHandler db (some uid) req (some r) now =
      ⟨⟨true, "Withdrawal initiated successfully!"⟩,
        setUser db uid (withdrawnUser u wa (withdrawRecordOf req wa r now)),
        true, some (round2 (wa - round2 (wa * 0.045)))⟩ := by
  simp only [withdrawHandler]
  rw [if_neg hbad, hu, ha]
  simp only [Option.getD_some]
  rw [if_neg hge, hr]
  simp only [if_true, getUser_setUser, hu, Option.map_some', setUser_setUser]
  rfl

/-! ## Path equations for the airtime handler -/


theorem airtimeHandler_noLogin (db : Db) (req : AirtimeReq)
    (reply : Option AirtimeResult) (now : String) :
    airtimeHandler db none req reply now =
      ⟨⟨false, "Internal Server Error"⟩, db, false, none⟩ := rfl

theorem airtimeHandler_noUser {db : Db} {uid : String} (req : AirtimeReq)
    (reply : Option AirtimeResult) (now : String)
    (hu : getUser db uid = none) :
    airtimeHandler db (some uid) req reply now =
      ⟨⟨false, "User not found"⟩, db, false, none⟩ := by
  simp only [airtimeHandler]
  rw [hu]

theorem airtimeHandler_insufficient {db : Db} {uid : String} {u : UserRecord}
    {req : AirtimeReq} (reply : Option AirtimeResult) (now : String)
    (hu : getUser db uid = some u)
    (hlt : jsNumLt (some u.balance)
      (req.amount.map (fun a => round2 (a * 0.995))) = true) :
    airtimeHandler db (some uid) req reply now =
      ⟨⟨false, "Insufficient balance"⟩, db, false, none⟩ := by
  simp only [airtimeHandler]
  rw [hu]
  simp only [hlt, if_true]

theorem airtimeHandler_noReply {db : Db} {uid : String} {u : UserRecord}
    {req : AirtimeReq} (now : String)
    (hu : getUser db uid = some u)
    (hge : jsNumLt (some u.balance)
      (req.amount.map (fun a => round2 (a * 0.995))) = false) :
    airtimeHandler db (some uid) req none now =
      ⟨⟨false, "Internal Server Error"⟩, db, true,
        req.amount.map (fun a => round2 (a * 0.995))⟩ := by
  simp only [airtimeHandler]
  rw [hu]
  simp only [hge, Bool.false_eq_true, if_false]

theorem airtimeHandler_providerFail {db : Db} {uid : String} {u : UserRecord}
    {req : AirtimeReq} {r : AirtimeResult} (now : String)
    (hu : getUser db uid = some u)
    (hge : jsNumLt (some u.balance)
      (req.amount.map (fun a => round2 (a * 0.995))) = false)
    (hr : ¬ r.status = "success") :
    airtimeHandler db (some uid) req (some r) now =
      ⟨⟨false, r.message⟩, db, true,
        req.amount.map (fun a => round2 (a * 0.995))⟩ := by
  simp only [airtimeHandler]
  rw [hu]
  simp only [hge, Bool.false_eq_true, if_false]
  rw [if_neg hr]

theorem airtimeHandler_nanAmount {db : Db} {uid : String} {u : UserRecord}
    {req : AirtimeReq} {r : AirtimeResult} (now : String)
    (hu : getUser db uid = some u)
    (ha : req.amount = none)
    (hr : r.status = "success") :
    airtimeHandler db (some uid) req (some r) now =
      ⟨⟨false, "Internal Server Error"⟩, db, true, none⟩ := by
  simp only [airtimeHandler]
  rw [hu]
  simp only [ha, Option.map_none', jsNumLt, Bool.false_eq_true, if_false]
  rw [if_pos hr]

theorem airtimeHandler_success {db : Db} {uid : String} {u : UserRecord}
    {req : AirtimeReq} {r : AirtimeResult} {a : ℚ} (now : String)
    (hu : getUser db uid = some u)
    (ha : req.amount = some a)
    (hge : jsNumLt (some u.balance) (some (round2 (a * 0.995))) = false)
    (hr : r.status = "success") :
    airtimeHandler db (some uid) req (some r) now =
      ⟨⟨true, r.message⟩,
        setUser db uid (airtimeUser u (round2 (a * 0.995))
          (airtimeRecordOf req (round2 (a * 0.995)) r now)),
        true, some (round2 (a * 0.995))⟩ := by
  simp only [airtimeHandler]
  rw [hu]
  simp only [ha, Option.map_some', hge, Bool.false_eq_true, if_false]
  rw [if_pos hr]
  simp only [getUser_setUser, hu, Option.map_some', setUser_setUser]
  rfl

/-! ## Preservation of the ledger invariant -/

theorem ledgerSum_credited (u : UserRecord) (req : WebhookReq) :
    ledgerSum (creditedUser u req) = ledgerSum u + req.amount_paid := by
  simp only [ledgerSum, creditedUser, depositRecord, List.map_append,
    List.sum_append, List.map_cons, List.map_nil, List.sum_cons, List.sum_nil,
    txDelta]
  ring

theorem ledgerSum_withdrawn (u : UserRecord) (wa : ℚ) (req : WithdrawReq)
    (r : TransferResult) (now : String) :
    ledgerSum (withdrawnUser u wa (withdrawRecordOf req wa r now)) =
      ledgerSum u - wa := by
  simp only [ledgerSum, withdrawnUser, withdrawRecordOf, List.map_append,
    List.sum_append, List.map_cons, List.map_nil, List.sum_cons, List.sum_nil]
  ring

theorem ledgerSum_airtime (u : UserRecord) (da : ℚ) (req : AirtimeReq)
    (r : AirtimeResult) (now : String) :
    ledgerSum (airtimeUser u da (airtimeRecordOf req da r now)) =
      ledgerSum u - da := by
  simp only [ledgerSum, airtimeUser, airtimeRecordOf, List.map_append,
    List.sum_append, List.map_cons, List.map_nil, List.sum_cons, List.sum_nil,
    txDelta]
  ring

theorem balancedUser_credited {u : UserRecord} {req : WebhookReq}
    (hb : BalancedUser u) (hg : twoDec req.amount_paid = true) :
    BalancedUser (creditedUser u req) := by
  constructor
  · show u.balance + req.amount_paid = _
    rw [ledgerSum_credited, hb.1]
  · exact twoDec_add hb.2 hg

theorem balancedUser_withdrawn {u : UserRecord} {wa : ℚ} {req : WithdrawReq}
    {r : TransferResult} {now : String}
    (hb : BalancedUser u) (hwa : twoDec wa = true) :
    BalancedUser (withdrawnUser u wa (withdrawRecordOf req wa r now)) := by
  have hsub : twoDec (u.balance - wa) = true := twoDec_sub hb.2 hwa
  constructor
  · show round2 (u.balance - wa) = _
    rw [round2_eq_self hsub, ledgerSum_withdrawn, hb.1]
  · show twoDec (round2 (u.balance - wa)) = true
    rw [round2_eq_self hsub]
    exact hsub

theorem balancedUser_airtime {u : UserRecord} {da : ℚ} {req : AirtimeReq}
    {r : AirtimeResult} {now : String}
    (hb : BalancedUser u) (hda : twoDec da = true) :
    BalancedUser (airtimeUser u da (airtimeRecordOf req da r now)) := by
  constructor
  · show u.balance - da = _
    rw [ledgerSum_airtime, hb.1]
  · exact twoDec_sub hb.2 hda

theorem balancedUser_registerRecord (fullName email phone createdAt : String) :
    BalancedUser (registerRecord fullName email phone createdAt) := by
  constructor
  · show (2.5 : ℚ) = _
    simp [ledgerSum, registerRecord]
  · exact twoDec_signup

theorem balancedDb_registerUser {db : Db} (h : BalancedDb db)
    (uid fullName email phone createdAt : String) :
    BalancedDb (registerUser db uid fullName email phone createdAt) := by
  intro kv hkv
  rcases List.mem_append.mp hkv with hk | hk
  · exact h _ hk
  · rcases List.mem_singleton.mp hk with rfl
    exact balancedUser_registerRecord fullName email phone createdAt

theorem applyOp_balanced (apiKey now : String) {db : Db} (h : BalancedDb db) :
    ∀ op : Op, opTwoDec op = true → BalancedDb (applyOp apiKey now db op) := by
  intro op hop
  cases op with
  | deposit req =>
    simp only [applyOp]
    cases hv : verifyWebhook req apiKey with
    | false =>
      rw [webhookHandler_unverified db hv]
      exact h
    | true =>
      cases he : recognizedEvents.contains req.event_type with
      | false =>
        rw [webhookHandler_unrecognized db hv he]
        exact h
      | true =>
        cases hf : findTargetUser db req.account_number with
        | none =>
          rw [webhookHandler_unresolved hv he hf]
          exact h
        | some uid =>
          cases hu : getUser db uid with
          | none =>
            rw [webhookHandler_target_missing hv he hf hu]
            exact h
          | some u =>
            rw [webhookHandler_success hv he hf hu]
            intro kv hkv
            rcases mem_setUser hkv with hk | hk
            · rw [hk]
              exact balancedUser_credited (h _ (getUser_mem hu)) hop
            · exact h _ hk
  | withdraw uid req reply =>
    simp only [applyOp]
    by_cases hbad : req.accountNumber = "" ∨ req.bankCode = "" ∨
        req.amount = none ∨ jsNumLt req.amount (some 500) = true
    · rw [withdrawHandler_invalid db uid reply now hbad]
      exact h
    · cases hu : getUser db uid with
      | none =>
        rw [withdrawHandler_noUser reply now hbad hu]
        exact h
      | some u =>
        cases hamt : req.amount with
        | none => exact absurd (Or.inr (Or.inr (Or.inl hamt))) hbad
        | some wa =>
          by_cases hlt : u.balance < wa
          · rw [withdrawHandler_insufficient reply now hbad hu hamt hlt]
            exact h
          · cases reply with
            | none =>
              rw [withdrawHandler_noReply now hbad hu hamt hlt]
              exact h
            | some r =>
              cases hr : r.status with
              | false =>
                rw [withdrawHandler_providerFail now hbad hu hamt hlt hr]
                exact h
              | true =>
                rw [withdrawHandler_success now hbad hu hamt hlt hr]
                intro kv hkv
                rcases mem_setUser hkv with hk | hk
                · rw [hk]
                  have hwa : twoDec wa = true := by
                    simp only [opTwoDec, hamt] at hop
                    exact hop
                  exact balancedUser_withdrawn (h _ (getUser_mem hu)) hwa
                · exact h _ hk
  | airtime uid req reply =>
    simp only [applyOp]
    cases hu : getUser db uid with
    | none =>
      rw [airtimeHandler_noUser req reply now hu]
      exact h
    | some u =>
      cases hlt : jsNumLt (some u.balance)
          (req.amount.map (fun a => round2 (a * 0.995))) with
      | true =>
        rw [airtimeHandler_insufficient reply now hu hlt]
        exact h
      | false =>
        cases reply with
        | none =>
          rw [airtimeHandler_noReply now hu hlt]
          exact h
        | some r =>
          by_cases hr : r.status = "success"
          · cases hamt : req.amount with
            | none =>
              rw [airtimeHandler_nanAmount now hu hamt hr]
              exact h
            | some a =>
              have hge : jsNumLt (some u.balance)
                  (some (round2 (a * 0.995))) = false := by
                rw [hamt] at hlt
                simpa using hlt
              rw [airtimeHandler_success now hu hamt hge hr]
              intro kv hkv
              rcases mem_setUser hkv with hk | hk
              · rw [hk]
                exact balancedUser_airtime (h _ (getUser_mem hu))
                  (twoDec_round2 _)
              · exact h _ hk
          · rw [airtimeHandler_providerFail now hu hlt hr]
            exact h

theorem runOps_balanced (apiKey now : String) {db : Db} {ops : List Op}
    (h : BalancedDb db) (hops : ∀ op ∈ ops, opTwoDec op = true) :
    BalancedDb (runOps apiKey now db ops) := by
  induction ops generalizing db with
  | nil => exact h
  | cons op rest ih =>
    exact ih (applyOp_balanced apiKey now h op (hops op (List.mem_cons_self _ _)))
      (fun op' hm => hops op' (List.mem_cons_of_mem _ hm))

/-! ## Digest shape lemmas -/

theorem jsNumLt_some_some (a b : ℚ) : jsNumLt (some a) (some b) = true ↔ a < b := by
  simp [jsNumLt]

theorem length_compressBlock (h block : List Nat) :
    (compressBlock h block).length = 8 := rfl

theorem length_foldl_compressBlock (blocks : List (List Nat)) (h : List Nat)
    (hh : h.length = 8) : (blocks.foldl compressBlock h).length = 8 := by
  induction blocks generalizing h with
  | nil => exact hh
  | cons b rest ih => exact ih _ (length_compressBlock h b)

theorem length_flatMap_word2bytes (l : List Nat) :
    (l.flatMap word2bytes).length = 4 * l.length := by
  induction l with
  | nil => rfl
  | cons w rest ih =>
    simp only [List.flatMap_cons, List.length_append, ih, word2bytes,
      List.length_cons, List.length_nil, List.length_cons]
    ring

theorem length_sha256bytes (msg : List Nat) : (sha256bytes msg).length = 32 := by
  unfold sha256bytes
  rw [length_flatMap_word2bytes,
    length_foldl_compressBlock _ initH (show initH.length = 8 from rfl)]

theorem length_hmacSha256 (key msg : List Nat) :
    (hmacSha256 key msg).length = 32 := by
  unfold hmacSha256
  exact length_sha256bytes _

theorem length_flatMap_byteToHex (l : List Nat) :
    (l.flatMap byteToHex).length = 2 * l.length := by
  induction l with
  | nil => rfl
  | cons b rest ih =>
    simp only [List.flatMap_cons, List.length_append, ih, byteToHex,
      List.length_cons, List.length_nil]
    ring

theorem hmacSha256Hex_ne_empty (key msg : String) :
    hmacSha256Hex key msg ≠ "" := by
  unfold hmacSha256Hex bytesToHex
  intro h
  have hd := congrArg String.data h
  simp only at hd
  have hlen := congrArg List.length hd
  rw [length_flatMap_byteToHex, length_hmacSha256] at hlen
  simp at hlen

/-! ## Race executions -/

theorem runRace_serialized (uid : String) (g1 g2 : ℚ) (u : UserRecord) :
    runRace uid g1 g2 [true, true, false, false]
        ⟨CreditPC.toRead, CreditPC.toRead, [(uid, u)]⟩ =
      ⟨CreditPC.finished, CreditPC.finished,
        [(uid, { u with balance := u.balance + g1 + g2 })]⟩ := by
  simp [runRace, creditStep, getUser, setUser]

theorem runRace_interleaved (uid : String) (g1 g2 : ℚ) (u : UserRecord) :
    runRace uid g1 g2 [true, false, true, false]
        ⟨CreditPC.toRead, CreditPC.toRead, [(uid, u)]⟩ =
      ⟨CreditPC.finished, CreditPC.finished,
        [(uid, { u with balance := u.balance + g2 })]⟩ := by
  simp [runRace, creditStep, getUser, setUser]


/-! ## Claim theorems -/

set_option maxRecDepth 100000 in
/-- C6: `verifyWebhook` returns `true` exactly when the supplied signature
header (either header name, JavaScript `||`) equals the hex HMAC-SHA256 of
the raw unparsed body under the shared secret; a missing header or an
empty (falsy) header fails closed to `false` (as does the
length-mismatch throw of `timingSafeEqual`, internalized in the model);
concretely, a body with one byte changed paired with the original
signature is rejected, while the same changed body with a freshly
computed signature over the new bytes is accepted. -/
theorem c6_verifyWebhook_correct :
    (∀ (req : WebhookReq) (apiKey : String),
      verifyWebhook req apiKey = true ↔
        jsOrStr req.verificationHeader req.signatureHeader =
          some (hmacSha256Hex apiKey req.rawBody)) ∧
    (∀ (rawBody et an : String) (ap : ℚ) (tr : String) (ts : Int)
        (apiKey : String),
      verifyWebhook ⟨rawBody, none, none, et, an, ap, tr, ts⟩ apiKey = false) ∧
    (∀ (rawBody et an : String) (ap : ℚ) (tr : String) (ts : Int)
        (apiKey : String),
      verifyWebhook ⟨rawBody, some "", some "", et, an, ap, tr, ts⟩ apiKey
        = false) ∧
    verifyWebhook tamperedReq testKey = false ∧
    verifyWebhook freshReq testKey = true := by
  refine ⟨?_, ?_, ?_, by decide, by decide⟩
  · intro req apiKey
    simp only [verifyWebhook]
    cases hsig : jsOrStr req.verificationHeader req.signatureHeader with
    | none => simp [jsStrTruthy]
    | some s =>
      by_cases hs : s = ""
      · subst hs
        have hne := hmacSha256Hex_ne_empty apiKey req.rawBody
        simp [jsStrTruthy]
        intro h
        exact hne h.symm
      · have ht : jsStrTruthy (some s) = true := by
          simp [jsStrTruthy, hs]
        rw [ht]
        simp only [if_true, Option.getD_some, timingSafeEqual]
        by_cases hlen : (strBytes s).length
            = (strBytes (hmacSha256Hex apiKey req.rawBody)).length
        · rw [if_pos hlen]
          simp [beq_iff_eq]
        · rw [if_neg hlen]
          simp only [Bool.false_eq_true, false_iff, Option.some.injEq]
          intro h
          rw [h] at hlen
          exact hlen rfl
  · intro rawBody et an ap tr ts apiKey
    rfl
  · intro rawBody et an ap tr ts apiKey
    rfl

/-- C4: a debit request (withdrawal or airtime) that passes the local
validation and balance checks but whose external provider call reports
failure returns a failure response, leaves the database — balance,
transaction and withdrawal history — exactly as it was, and the provider
call did happen before the rejection. -/
theorem c4_provider_failure_no_mutation :
    (∀ (db : Db) (uid : String) (u : UserRecord) (req : WithdrawReq) (wa : ℚ)
        (r : TransferResult) (now : String),
      ¬(req.accountNumber = "" ∨ req.bankCode = "" ∨ req.amount = none ∨
        jsNumLt req.amount (some 500) = true) →
      getUser db uid = some u →
      req.amount = some wa →
      ¬ u.balance < wa →
      r.status = false →
      (withdrawHandler db (some uid) req (some r) now).db = db ∧
      (withdrawHandler db (some uid) req (some r) now).resp.success = false ∧
      (withdrawHandler db (some uid) req (some r) now).providerCalled = true) ∧
    (∀ (db : Db) (uid : String) (u : UserRecord) (req : AirtimeReq)
        (r : AirtimeResult) (now : String),
      getUser db uid = some u →
      jsNumLt (some u.balance) (req.amount.map (fun a => round2 (a * 0.995)))
        = false →
      ¬ r.status = "success" →
      (airtimeHandler db (some uid) req (some r) now).db = db ∧
      (airtimeHandler db (some uid) req (some r) now).resp.success = false ∧
      (airtimeHandler db (some uid) req (some r) now).providerCalled = true) := by
  constructor
  · intro db uid u req wa r now hbad hu ha hge hr
    rw [withdrawHandler_providerFail now hbad hu ha hge hr]
    exact ⟨rfl, rfl, rfl⟩
  · intro db uid u req r now hu hge hr
    rw [airtimeHandler_providerFail now hu hge hr]
    exact ⟨rfl, rfl, rfl⟩

/-- Witness for C4: a withdrawal of 600 and an airtime purchase of 200 by
a user with balance 10000, both rejected by the provider, leave the store
untouched. -/
theorem c4_witness :
    ((withdrawHandler richDb (some "u1") wreq600 (some failTransfer) "t").db
        = richDb ∧
      (withdrawHandler richDb (some "u1") wreq600 (some failTransfer)
        "t").resp.success = false ∧
      (withdrawHandler richDb (some "u1") wreq600 (some failTransfer)
        "t").providerCalled = true) ∧
    ((airtimeHandler richDb (some "u1") areqOk (some failAirtime) "t").db
        = richDb ∧
      (airtimeHandler richDb (some "u1") areqOk (some failAirtime)
        "t").resp.success = false ∧
      (airtimeHandler richDb (some "u1") areqOk (some failAirtime)
        "t").providerCalled = true) :=
  ⟨c4_provider_failure_no_mutation.1 richDb "u1" richUser wreq600 600
      failTransfer "t" (by norm_num [wreq600, jsNumLt]; decide) rfl rfl
      (by norm_num [richUser]) rfl,
    c4_provider_failure_no_mutation.2 richDb "u1" richUser areqOk failAirtime
      "t" rfl
      (by norm_num [richUser, areqOk, jsNumLt, round2, round_eq])
      (by simp [failAirtime])⟩

/-- C5: a withdrawal whose requested amount exceeds the balance, and an
airtime purchase whose discounted charged amount exceeds the balance, are
rejected with "Insufficient balance" before any provider call, with the
database unchanged. -/
theorem c5_insufficient_balance_rejected :
    (∀ (db : Db) (uid : String) (u : UserRecord) (req : WithdrawReq) (wa : ℚ)
        (reply : Option TransferResult) (now : String),
      ¬(req.accountNumber = "" ∨ req.bankCode = "" ∨ req.amount = none ∨
        jsNumLt req.amount (some 500) = true) →
      getUser db uid = some u →
      req.amount = some wa →
      u.balance < wa →
      withdrawHandler db (some uid) req reply now =
        ⟨⟨false, "Insufficient balance"⟩, db, false, none⟩) ∧
    (∀ (db : Db) (uid : String) (u : UserRecord) (req : AirtimeReq) (a : ℚ)
        (reply : Option AirtimeResult) (now : String),
      getUser db uid = some u →
      req.amount = some a →
      u.balance < round2 (a * 0.995) →
      airtimeHandler db (some uid) req reply now =
        ⟨⟨false, "Insufficient balance"⟩, db, false, none⟩) := by
  constructor
  · intro db uid u req wa reply now hbad hu ha hlt
    exact withdrawHandler_insufficient reply now hbad hu ha hlt
  · intro db uid u req a reply now hu ha hlt
    have hblt : jsNumLt (some u.balance)
        (req.amount.map (fun x => round2 (x * 0.995))) = true := by
      rw [ha]
      simp [jsNumLt, hlt]
    exact airtimeHandler_insufficient reply now hu hblt

/-- Witness for C5: the fresh user holds only the 2.5 signup bonus, so a
600 withdrawal and a 200 airtime purchase (charged 199) are both rejected
with the store unchanged and no provider call. -/
theorem c5_witness :
    withdrawHandler testDb (some "u1") wreq600 (some okTransfer) "t" =
      ⟨⟨false, "Insufficient balance"⟩, testDb, false, none⟩ ∧
    airtimeHandler testDb (some "u1") areqOk (some okAirtime) "t" =
      ⟨⟨false, "Insufficient balance"⟩, testDb, false, none⟩ :=
  ⟨c5_insufficient_balance_rejected.1 testDb "u1" testUser wreq600 600
      (some okTransfer) "t" (by norm_num [wreq600, jsNumLt]; decide) rfl rfl
      (by norm_num [testUser]),
    c5_insufficient_balance_rejected.2 testDb "u1" testUser areqOk 200
      (some okAirtime) "t" rfl rfl
      (by norm_num [testUser, round2, round_eq])⟩

/-- Counterexample to C7: the airtime route performs no field-presence,
numeric or minimum check — a request whose amount parsed to `NaN` passes
the balance comparison (every comparison with `NaN` is `false`) and
reaches the external provider, instead of being rejected before any
external call as the claim requires. -/
theorem c7_airtime_nan_counterexample :
    areqNaN.amount = none ∧
    (airtimeHandler testDb (some "u1") areqNaN (some failAirtime)
      "t").providerCalled = true := by
  exact ⟨rfl, rfl⟩

/-- C7 (amended): the withdrawal route checks its preconditions strictly
in order — session first, then field presence/numeric form/500 minimum,
then user existence, then the balance bound — each a terminal rejection
with no mutation and no provider call; the airtime route, however, checks
only session (implicitly, via the caught `undefined` dereference), user
existence and the balance comparison: a `NaN` amount is never rejected
and always reaches the provider. -/
theorem c7_debit_precondition_order :
    (∀ (db : Db) (req : WithdrawReq) (reply : Option TransferResult)
        (now : String),
      withdrawHandler db none req reply now =
        ⟨⟨false, "Not logged in"⟩, db, false, none⟩) ∧
    (∀ (db : Db) (uid : String) (req : WithdrawReq)
        (reply : Option TransferResult) (now : String),
      (req.accountNumber = "" ∨ req.bankCode = "" ∨ req.amount = none ∨
        jsNumLt req.amount (some 500) = true) →
      withdrawHandler db (some uid) req reply now =
        ⟨⟨false, "Invalid withdrawal details"⟩, db, false, none⟩) ∧
    (∀ (db : Db) (uid : String) (req : WithdrawReq)
        (reply : Option TransferResult) (now : String),
      ¬(req.accountNumber = "" ∨ req.bankCode = "" ∨ req.amount = none ∨
        jsNumLt req.amount (some 500) = true) →
      getUser db uid = none →
      withdrawHandler db (some uid) req reply now =
        ⟨⟨false, "User not found"⟩, db, false, none⟩) ∧
    (∀ (db : Db) (uid : String) (u : UserRecord) (req : WithdrawReq) (wa : ℚ)
        (reply : Option TransferResult) (now : String),
      ¬(req.accountNumber = "" ∨ req.bankCode = "" ∨ req.amount = none ∨
        jsNumLt req.amount (some 500) = true) →
      getUser db uid = some u →
      req.amount = some wa →
      u.balance < wa →
      withdrawHandler db (some uid) req reply now =
        ⟨⟨false, "Insufficient balance"⟩, db, false, none⟩) ∧
    (∀ (db : Db) (req : AirtimeReq) (reply : Option AirtimeResult)
        (now : String),
      airtimeHandler db none req reply now =
        ⟨⟨false, "Internal Server Error"⟩, db, false, none⟩) ∧
    (∀ (db : Db) (uid : String) (u : UserRecord) (req : AirtimeReq)
        (reply : Option AirtimeResult) (now : String),
      getUser db uid = some u →
      req.amount = none →
      (airtimeHandler db (some uid) req reply now).providerCalled = true) := by
  refine ⟨withdrawHandler_noLogin, ?_, ?_, ?_, airtimeHandler_noLogin, ?_⟩
  · intro db uid req reply now hbad
    exact withdrawHandler_invalid db uid reply now hbad
  · intro db uid req reply now hbad hu
    exact withdrawHandler_noUser reply now hbad hu
  · intro db uid u req wa reply now hbad hu ha hlt
    exact withdrawHandler_insufficient reply now hbad hu ha hlt
  · intro db uid u req reply now hu ha
    have hge : jsNumLt (some u.balance)
        (req.amount.map (fun a => round2 (a * 0.995))) = false := by
      rw [ha]
      rfl
    cases reply with
    | none =>
      rw [airtimeHandler_noReply now hu hge]
    | some r =>
      by_cases hr : r.status = "success"
      · rw [airtimeHandler_nanAmount now hu ha hr]
      · rw [airtimeHandler_providerFail now hu hge hr]

/-- Witness for C7: the ordered withdrawal rejections at concrete inputs,
and a `NaN`-amount airtime request that reaches the provider. -/
theorem c7_witness :
    withdrawHandler testDb (some "u1") (⟨"", "", some 600⟩ : WithdrawReq)
        (some okTransfer) "t" =
      ⟨⟨false, "Invalid withdrawal details"⟩, testDb, false, none⟩ ∧
    (airtimeHandler testDb (some "u1") areqNaN (some okAirtime)
      "t").providerCalled = true :=
  ⟨c7_debit_precondition_order.2.1 testDb "u1" ⟨"", "", some 600⟩
      (some okTransfer) "t" (Or.inl rfl),
    c7_debit_precondition_order.2.2.2.2.2 testDb "u1" testUser areqNaN
      (some okAirtime) "t" rfl rfl⟩

/-- C8: an accepted withdrawal of a two-decimal amount `wa` computes
`fee = round2(wa * 0.045)`, sends `net = round2(wa - fee)` to the
provider, debits the full requested amount `wa` from the balance, and
records amount, fee and net; an accepted airtime purchase of amount `a`
computes the charged amount `round2(a * 0.995)`, and that discounted
amount is both what is sent to the provider and what is debited. -/
theorem c8_fee_discount_formulas :
    (∀ (db : Db) (uid : String) (u : UserRecord) (req : WithdrawReq) (wa : ℚ)
        (r : TransferResult) (now : String),
      ¬(req.accountNumber = "" ∨ req.bankCode = "" ∨ req.amount = none ∨
        jsNumLt req.amount (some 500) = true) →
      getUser db uid = some u →
      req.amount = some wa →
      ¬ u.balance < wa →
      r.status = true →
      twoDec wa = true →
      twoDec u.balance = true →
      (withdrawHandler db (some uid) req (some r) now).sentAmount =
        some (round2 (wa - round2 (wa * 0.045))) ∧
      (withdrawRecordOf req wa r now).amount = wa ∧
      (withdrawRecordOf req wa r now).fee = round2 (wa * 0.045) ∧
      (withdrawRecordOf req wa r now).net = round2 (wa - round2 (wa * 0.045)) ∧
      ∃ u', getUser (withdrawHandler db (some uid) req (some r) now).db uid
          = some u' ∧
        u'.balance = u.balance - wa ∧
        u'.withdrawals = u.withdrawals ++ [withdrawRecordOf req wa r now]) ∧
    (∀ (db : Db) (uid : String) (u : UserRecord) (req : AirtimeReq) (a : ℚ)
        (r : AirtimeResult) (now : String),
      getUser db uid = some u →
      req.amount = some a →
      ¬ u.balance < round2 (a * 0.995) →
      r.status = "success" →
      (airtimeHandler db (some uid) req (some r) now).sentAmount =
        some (round2 (a * 0.995)) ∧
      ∃ u', getUser (airtimeHandler db (some uid) req (some r) now).db uid
          = some u' ∧
        u'.balance = u.balance - round2 (a * 0.995) ∧
        u'.transactions = u.transactions ++
          [airtimeRecordOf req (round2 (a * 0.995)) r now]) := by
  constructor
  · intro db uid u req wa r now hbad hu ha hge hr hwa hbal
    rw [withdrawHandler_success now hbad hu ha hge hr]
    refine ⟨rfl, rfl, rfl, rfl, withdrawnUser u wa (withdrawRecordOf req wa r now),
      ?_, ?_, rfl⟩
    · show getUser (setUser db uid _) uid = _
      rw [getUser_setUser, hu]
      rfl
    · show round2 (u.balance - wa) = u.balance - wa
      exact round2_eq_self (twoDec_sub hbal hwa)
  · intro db uid u req a r now hu ha hge hr
    have hblt : jsNumLt (some u.balance) (some (round2 (a * 0.995))) = false := by
      simp [jsNumLt, hge]
    rw [airtimeHandler_success now hu ha hblt hr]
    refine ⟨rfl, airtimeUser u (round2 (a * 0.995))
      (airtimeRecordOf req (round2 (a * 0.995)) r now), ?_, rfl, rfl⟩
    show getUser (setUser db uid _) uid = _
    rw [getUser_setUser, hu]
    rfl

/-- Witness for C8: a withdrawal of 600 (fee 27, net 573) and an airtime
purchase of 200 (charged 199) by a user with balance 10000. -/
theorem c8_witness :
    (withdrawHandler richDb (some "u1") wreq600 (some okTransfer)
        "t").sentAmount = some (round2 (600 - round2 (600 * 0.045))) ∧
    (airtimeHandler richDb (some "u1") areqOk (some okAirtime)
        "t").sentAmount = some (round2 (200 * 0.995)) :=
  ⟨(c8_fee_discount_formulas.1 richDb "u1" richUser wreq600 600 okTransfer "t"
      (by norm_num [wreq600, jsNumLt]; decide) rfl rfl (by norm_num [richUser])
      rfl (by norm_num [twoDec]) (by norm_num [richUser, twoDec])).1,
    (c8_fee_discount_formulas.2 richDb "u1" richUser areqOk 200 okAirtime "t"
      rfl rfl (by norm_num [richUser, round2, round_eq]) rfl).1⟩

set_option maxRecDepth 100000 in
/-- Counterexample to C2: the webhook handler deducts no fee at all — a
verified gross deposit of 100.00 on the fresh user (signup balance 2.5)
leaves balance 102.50, not the 100.00 (= 2.5 + 97.50) that crediting
net = gross − 2.5% fee would produce. -/
theorem c2_deposit_fee_counterexample :
    depositReq.amount_paid = 100 ∧ testUser.balance = 2.5 ∧
    (getUser (webhookHandler testDb depositReq testKey).2 "u1").map
      UserRecord.balance = some 102.5 ∧
    (102.5 : ℚ) ≠ 2.5 + (100 - round2 (100 * 0.025)) := by
  have hv : verifyWebhook depositReq testKey = true := by decide
  have he : recognizedEvents.contains depositReq.event_type = true := by decide
  have hf : findTargetUser testDb depositReq.account_number = some "u1" := by
    decide
  have hu : getUser testDb "u1" = some testUser := rfl
  rw [webhookHandler_success hv he hf hu]
  refine ⟨rfl, rfl, ?_, by norm_num [round2, round_eq]⟩
  show (getUser (setUser testDb "u1" (creditedUser testUser depositReq))
    "u1").map UserRecord.balance = some 102.5
  rw [getUser_setUser, hu]
  show some (creditedUser testUser depositReq).balance = some 102.5
  norm_num [creditedUser, testUser, depositReq]

/-- C2 (amended): a verified, recognized and account-resolved deposit
webhook credits the full gross amount with no fee deduction —
`new_balance = current_balance + gross` — and appends exactly one deposit
transaction record carrying that gross amount. -/
theorem c2_deposit_credits_full_gross {db : Db} {req : WebhookReq}
    {apiKey uid : String} {u : UserRecord}
    (hv : verifyWebhook req apiKey = true)
    (he : recognizedEvents.contains req.event_type = true)
    (hf : findTargetUser db req.account_number = some uid)
    (hu : getUser db uid = some u) :
    (webhookHandler db req apiKey).1 = 200 ∧
    getUser (webhookHandler db req apiKey).2 uid = some (creditedUser u req) ∧
    (creditedUser u req).balance = u.balance + req.amount_paid ∧
    (creditedUser u req).transactions
      = u.transactions ++ [depositRecord req] := by
  rw [webhookHandler_success hv he hf hu]
  refine ⟨rfl, ?_, rfl, rfl⟩
  show getUser (setUser db uid (creditedUser u req)) uid = _
  rw [getUser_setUser, hu]
  rfl

set_option maxRecDepth 100000 in
/-- Witness for C2 (amended): the 100.00 deposit on the fresh user. -/
theorem c2_witness :
    (webhookHandler testDb depositReq testKey).1 = 200 ∧
    getUser (webhookHandler testDb depositReq testKey).2 "u1"
      = some (creditedUser testUser depositReq) ∧
    (creditedUser testUser depositReq).balance
      = testUser.balance + depositReq.amount_paid ∧
    (creditedUser testUser depositReq).transactions
      = testUser.transactions ++ [depositRecord depositReq] :=
  c2_deposit_credits_full_gross (by decide) (by decide) (by decide) rfl

/-- C10: a successful deposit webhook rewrites only the target user's
balance and appends exactly one record under the target user's
transactions; every other field of that user and every other user's
record are unchanged. -/
theorem c10_webhook_frame {db : Db} {req : WebhookReq}
    {apiKey uid : String} {u : UserRecord}
    (hv : verifyWebhook req apiKey = true)
    (he : recognizedEvents.contains req.event_type = true)
    (hf : findTargetUser db req.account_number = some uid)
    (hu : getUser db uid = some u) :
    getUser (webhookHandler db req apiKey).2 uid = some (creditedUser u req) ∧
    (∀ uid', uid' ≠ uid →
      getUser (webhookHandler db req apiKey).2 uid' = getUser db uid') ∧
    (creditedUser u req).fullName = u.fullName ∧
    (creditedUser u req).email = u.email ∧
    (creditedUser u req).phone = u.phone ∧
    (creditedUser u req).createdAt = u.createdAt ∧
    (creditedUser u req).accountDetails = u.accountDetails ∧
    (creditedUser u req).withdrawals = u.withdrawals ∧
    (creditedUser u req).balance = u.balance + req.amount_paid ∧
    (creditedUser u req).transactions
      = u.transactions ++ [depositRecord req] := by
  rw [webhookHandler_success hv he hf hu]
  refine ⟨?_, ?_, rfl, rfl, rfl, rfl, rfl, rfl, rfl, rfl⟩
  · show getUser (setUser db uid (creditedUser u req)) uid = _
    rw [getUser_setUser, hu]
    rfl
  · intro uid' hne
    exact getUser_setUser_ne db uid uid' _ hne


set_option maxRecDepth 100000 in
/-- Witness for C10: crediting user `u1` in a two-user store leaves user
`u2` untouched. -/
theorem c10_witness :
    getUser (webhookHandler twoUserDb depositReq testKey).2 "u1"
      = some (creditedUser testUser depositReq) ∧
    getUser (webhookHandler twoUserDb depositReq testKey).2 "u2"
      = getUser twoUserDb "u2" := by
  have hu : getUser twoUserDb "u1" = some testUser := rfl
  have hv : verifyWebhook depositReq testKey = true := by decide
  have he : recognizedEvents.contains depositReq.event_type = true := by decide
  have hf : findTargetUser twoUserDb depositReq.account_number = some "u1" := by
    decide
  exact ⟨(c10_webhook_frame hv he hf hu).1,
    (c10_webhook_frame hv he hf hu).2.1 "u2" (by decide)⟩

set_option maxRecDepth 100000 in
/-- Counterexample to C1: the webhook handler keeps no record of seen
provider references — redelivering the identical payload (same
`transaction_reference` "TX100") credits the gross amount a second time,
moving the balance from 102.5 to 202.5 instead of leaving it unchanged. -/
theorem c1_webhook_replay_counterexample :
    (getUser (webhookHandler testDb depositReq testKey).2 "u1").map
      UserRecord.balance = some 102.5 ∧
    (getUser (webhookHandler (webhookHandler testDb depositReq testKey).2
        depositReq testKey).2 "u1").map UserRecord.balance = some 202.5 ∧
    (webhookHandler (webhookHandler testDb depositReq testKey).2 depositReq
        testKey).1 = 200 ∧
    (202.5 : ℚ) ≠ 102.5 := by
  have hv : verifyWebhook depositReq testKey = true := by decide
  have he : recognizedEvents.contains depositReq.event_type = true := by decide
  have hf : findTargetUser testDb depositReq.account_number = some "u1" := by
    decide
  have hu : getUser testDb "u1" = some testUser := rfl
  have h1 := webhookHandler_success hv he hf hu
  have hu1 : getUser (setUser testDb "u1" (creditedUser testUser depositReq))
      "u1" = some (creditedUser testUser depositReq) := by
    rw [getUser_setUser, hu]
    rfl
  have hf1 : findTargetUser
      (setUser testDb "u1" (creditedUser testUser depositReq))
      depositReq.account_number = some "u1" := by decide
  have h2 := webhookHandler_success hv he hf1 hu1
  rw [h1]
  show (getUser (setUser testDb "u1" (creditedUser testUser depositReq))
      "u1").map UserRecord.balance = some 102.5 ∧
    (getUser (webhookHandler
        (setUser testDb "u1" (creditedUser testUser depositReq))
        depositReq testKey).2 "u1").map UserRecord.balance = some 202.5 ∧
    (webhookHandler (setUser testDb "u1" (creditedUser testUser depositReq))
        depositReq testKey).1 = 200 ∧
    (202.5 : ℚ) ≠ 102.5
  rw [h2]
  refine ⟨?_, ?_, rfl, by norm_num⟩
  · rw [hu1]
    show some (creditedUser testUser depositReq).balance = some 102.5
    norm_num [creditedUser, testUser, depositReq]
  · show (getUser (setUser
        (setUser testDb "u1" (creditedUser testUser depositReq)) "u1"
        (creditedUser (creditedUser testUser depositReq) depositReq))
      "u1").map UserRecord.balance = some 202.5
    rw [getUser_setUser, hu1]
    show some (creditedUser (creditedUser testUser depositReq)
      depositReq).balance = some 202.5
    norm_num [creditedUser, testUser, depositReq]

/-- C1 (amended): webhook crediting is not idempotent — under unique store
keys, redelivering an identical verified payload credits the gross amount
again: after the second delivery the balance has grown by twice the gross
amount, and the second delivery is also acknowledged with 200. -/
theorem c1_webhook_replay_credits_again {db : Db} {req : WebhookReq}
    {apiKey uid : String} {u : UserRecord}
    (hnd : (db.map Prod.fst).Nodup)
    (hv : verifyWebhook req apiKey = true)
    (he : recognizedEvents.contains req.event_type = true)
    (hf : findTargetUser db req.account_number = some uid)
    (hu : getUser db uid = some u) :
    (webhookHandler (webhookHandler db req apiKey).2 req apiKey).1 = 200 ∧
    getUser (webhookHandler (webhookHandler db req apiKey).2 req apiKey).2 uid
      = some (creditedUser (creditedUser u req) req) ∧
    (creditedUser (creditedUser u req) req).balance
      = u.balance + req.amount_paid + req.amount_paid := by
  have hdetails : ∀ kv ∈ db, kv.1 = uid →
      kv.2.accountDetails = (creditedUser u req).accountDetails := by
    intro kv hm hk
    have hgm := getUser_of_mem_nodup hnd hm
    rw [hk, hu] at hgm
    injection hgm with h2
    rw [← h2]
    rfl
  have h1 := webhookHandler_success hv he hf hu
  have hf1 : findTargetUser (setUser db uid (creditedUser u req))
      req.account_number = some uid := by
    rw [findTargetUser_setUser db uid req.account_number (creditedUser u req)
      hdetails]
    exact hf
  have hu1 : getUser (setUser db uid (creditedUser u req)) uid
      = some (creditedUser u req) := by
    rw [getUser_setUser, hu]
    rfl
  have h2 := webhookHandler_success hv he hf1 hu1
  rw [h1]
  show (webhookHandler (setUser db uid (creditedUser u req)) req apiKey).1
      = 200 ∧
    getUser (webhookHandler (setUser db uid (creditedUser u req)) req
        apiKey).2 uid = some (creditedUser (creditedUser u req) req) ∧
    (creditedUser (creditedUser u req) req).balance
      = u.balance + req.amount_paid + req.amount_paid
  rw [h2]
  refine ⟨rfl, ?_, rfl⟩
  show getUser (setUser (setUser db uid (creditedUser u req)) uid
    (creditedUser (creditedUser u req) req)) uid = _
  rw [getUser_setUser, hu1]
  rfl

set_option maxRecDepth 100000 in
/-- Witness for C1 (amended): the duplicated 100.00 deposit. -/
theorem c1_witness :
    (webhookHandler (webhookHandler testDb depositReq testKey).2 depositReq
        testKey).1 = 200 ∧
    getUser (webhookHandler (webhookHandler testDb depositReq testKey).2
        depositReq testKey).2 "u1"
      = some (creditedUser (creditedUser testUser depositReq) depositReq) ∧
    (creditedUser (creditedUser testUser depositReq) depositReq).balance
      = testUser.balance + depositReq.amount_paid + depositReq.amount_paid :=
  c1_webhook_replay_credits_again (by decide) (by decide) (by decide)
    (by decide) rfl

set_option maxRecDepth 100000 in
/-- Counterexample to C3: amounts are not restricted to whole cents — a
verified deposit of gross 1000.005 followed by an accepted withdrawal of
500 leaves balance `round2(2.5 + 1000.005 − 500) = 502.51`, while the
claimed invariant value `signup bonus + Σ net deposits − Σ gross
withdrawals` is 502.505. -/
theorem c3_ledger_counterexample :
    (getUser (runOps testKey "t" testDb
        [Op.deposit oddDepositReq, Op.withdraw "u1" wreq500 (some okTransfer)])
      "u1").map UserRecord.balance = some 502.51 ∧
    (502.51 : ℚ) ≠ 2.5 + 1000.005 - 500 := by
  have hv : verifyWebhook oddDepositReq testKey = true := by decide
  have he : recognizedEvents.contains oddDepositReq.event_type = true := by
    decide
  have hf : findTargetUser testDb oddDepositReq.account_number = some "u1" := by
    decide
  have hu : getUser testDb "u1" = some testUser := rfl
  have h1 := webhookHandler_success hv he hf hu
  have hu1 : getUser (setUser testDb "u1" (creditedUser testUser oddDepositReq))
      "u1" = some (creditedUser testUser oddDepositReq) := by
    rw [getUser_setUser, hu]
    rfl
  have hbad : ¬(wreq500.accountNumber = "" ∨ wreq500.bankCode = "" ∨
      wreq500.amount = none ∨ jsNumLt wreq500.amount (some 500) = true) := by
    norm_num [wreq500, jsNumLt]
    decide
  have hlt : ¬ (creditedUser testUser oddDepositReq).balance < 500 := by
    norm_num [creditedUser, testUser, oddDepositReq]
  have ha : wreq500.amount = some 500 := rfl
  have hr : okTransfer.status = true := rfl
  have h2 := withdrawHandler_success "t" hbad hu1 ha hlt hr
  show (getUser (withdrawHandler
      (webhookHandler testDb oddDepositReq testKey).2 (some "u1") wreq500
      (some okTransfer) "t").db "u1").map UserRecord.balance = some 502.51 ∧
    (502.51 : ℚ) ≠ 2.5 + 1000.005 - 500
  rw [h1]
  show (getUser (withdrawHandler
      (setUser testDb "u1" (creditedUser testUser oddDepositReq)) (some "u1")
      wreq500 (some okTransfer) "t").db "u1").map UserRecord.balance
      = some 502.51 ∧
    (502.51 : ℚ) ≠ 2.5 + 1000.005 - 500
  rw [h2]
  refine ⟨?_, by norm_num⟩
  show (getUser (setUser
      (setUser testDb "u1" (creditedUser testUser oddDepositReq)) "u1"
      (withdrawnUser (creditedUser testUser oddDepositReq) 500
        (withdrawRecordOf wreq500 500 okTransfer "t"))) "u1").map
    UserRecord.balance = some 502.51
  rw [getUser_setUser, hu1]
  show some (withdrawnUser (creditedUser testUser oddDepositReq) 500
    (withdrawRecordOf wreq500 500 okTransfer "t")).balance = some 502.51
  norm_num [withdrawnUser, creditedUser, testUser, oddDepositReq, round2,
    round_eq]

/-- C3 (amended): registration establishes the ledger invariant — balance
equals signup bonus plus recorded net deposit amounts minus recorded gross
withdrawal amounts minus recorded airtime charged amounts — and every
sequence of requests whose accepted amounts are two-decimal values (whole
cents) preserves it for every user in the store. -/
theorem c3_ledger_invariant :
    (∀ fullName email phone createdAt : String,
      BalancedUser (registerRecord fullName email phone createdAt)) ∧
    (∀ (apiKey now : String) (db : Db) (ops : List Op),
      BalancedDb db → (∀ op ∈ ops, opTwoDec op = true) →
      BalancedDb (runOps apiKey now db ops)) :=
  ⟨balancedUser_registerRecord,
    fun apiKey now _ _ h hops => runOps_balanced apiKey now h hops⟩

set_option maxRecDepth 100000 in
/-- Witness for C3 (amended): the fresh single-user store with a 100.00
deposit delivered keeps the invariant. -/
theorem c3_witness :
    BalancedDb (runOps testKey "t" testDb [Op.deposit depositReq]) :=
  c3_ledger_invariant.2 testKey "t" testDb [Op.deposit depositReq]
    (by norm_num [BalancedDb, testDb, BalancedUser, ledgerSum, testUser,
      twoDec])
    (by norm_num [opTwoDec, depositReq, twoDec])


/-- Counterexample to C9: the read-modify-write sequences of two
concurrent webhook credits (1000 and 500, distinct references) are not
synchronized — under the schedule read₁ read₂ write₁ write₂ both handlers
read balance 0 and the final balance is 500, not 1500: the 1000 credit is
lost. -/
theorem c9_race_counterexample :
    (getUser (runRace "u1" 1000 500 [true, false, true, false]
        ⟨CreditPC.toRead, CreditPC.toRead, [("u1", zeroUser)]⟩).db "u1").map
      UserRecord.balance = some 500 ∧
    (500 : ℚ) ≠ 1500 := by
  rw [runRace_interleaved]
  refine ⟨?_, by norm_num⟩
  show ((some { zeroUser with balance := zeroUser.balance + 500 }).map
    UserRecord.balance) = some 500
  norm_num [zeroUser]

/-- C9 (amended): the webhook credit's read-modify-write is unsynchronized:
when one handler's write precedes the other's read (serialized schedule)
both credits land and the balance grows by `g1 + g2`, but under the
interleaving where both handlers read before either writes, the first
credit is lost and the balance grows only by `g2`. -/
theorem c9_race_lost_update (uid : String) (g1 g2 : ℚ) (u : UserRecord) :
    (runRace uid g1 g2 [true, true, false, false]
        ⟨CreditPC.toRead, CreditPC.toRead, [(uid, u)]⟩).db =
      [(uid, { u with balance := u.balance + g1 + g2 })] ∧
    (runRace uid g1 g2 [true, false, true, false]
        ⟨CreditPC.toRead, CreditPC.toRead, [(uid, u)]⟩).db =
      [(uid, { u with balance := u.balance + g2 })] := by
  rw [runRace_serialized, runRace_interleaved]
  exact ⟨rfl, rfl⟩

end IACafe
